import Mathlib

/-!
Shallow embedding of `src/backend/teleinfo.py` (class `Teleinfo` of the
cleepmod-teleinfo repository).

The module state held on the Python instance (`self.port`, `self.last_raw`,
`self.__last_conso_heures_creuses`, `self.__last_conso_heures_pleines`,
`self.teleinfo_task`, plus the external persistent-config store) is modelled
as an explicit `TState` record.  Methods become functions `TState → ...`.
Python exceptions are modelled explicitly: a method whose exception escapes
returns an `Except`/a raised flag, and state mutations performed before the
raise point are kept (as in Python).  External collaborators (the serial
frame parser, the scheduler `Task`, the event bus) enter as parameters.
-/

/-- A Python value as it appears in the small configuration dictionaries of
the module: `None`, a string, or an integer. -/
inductive PyVal
  | pynone
  | str (s : String)
  | int (n : Int)
  deriving DecidableEq, Repr

/-- A Python object passed to the external `_update_config` call: either a
dict (a key → value mapping) or a set of values.  The source's day-rollover
code passes a *set* literal `{key, value, key, value}`. -/
inductive PyObj
  | dict (entries : List (String × PyVal))
  | set (elems : List PyVal)
  deriving DecidableEq, Repr

/-- `RawFrame`: the label → value mapping produced by one poll of the
teleinfo parser (`self.last_raw` in the source).  Values are the raw strings
decoded from the wire. -/
def RawFrame := List (String × String)
  deriving DecidableEq, Repr

/-- Digits of a decimal literal folded to a natural number. -/
def digitsToNat (cs : List Char) : Nat :=
  cs.foldl (fun a c => a * 10 + (c.toNat - ('0').toNat)) 0

/-- A nonempty all-digit character list parses to its value, anything else
fails. -/
def parseDigits (cs : List Char) : Option Nat :=
  if cs ≠ [] ∧ cs.all Char.isDigit then some (digitsToNat cs) else none

/-- Strip leading and trailing whitespace, as Python's `int(str)` does. -/
def stripWs (cs : List Char) : List Char :=
  ((cs.dropWhile Char.isWhitespace).reverse.dropWhile Char.isWhitespace).reverse

/-- Python's `int(s)` on a string: optional surrounding whitespace, optional
sign, then a nonempty run of decimal digits; raises `ValueError` (here:
`none`) otherwise. -/
def pyInt (v : String) : Option Int :=
  match stripWs v.data with
  | '-' :: rest => (parseDigits rest).map (fun n => -(n : Int))
  | '+' :: rest => (parseDigits rest).map (fun n => (n : Int))
  | cs => (parseDigits cs).map (fun n => (n : Int))

/-- Python `key in dict` / `set(ks).issubset(keys)` over a raw frame:
every listed label is present. -/
def hasKeys (raw : RawFrame) (ks : List String) : Bool :=
  ks.all (fun k => (List.lookup k raw).isSome)

/-- `raw[k]` where presence of `k` is already guaranteed by a `hasKeys`
guard (the default is never reached on guarded paths). -/
def getv (raw : RawFrame) (k : String) : String :=
  (List.lookup k raw).getD ""

/-- The billing scheme recognised by the `if/elif` chain of
`_teleinfo_task` (spec: `TariffScheme`). -/
inductive TariffScheme
  | peakOffPeak
  | ejp
  | tempo
  | base
  deriving DecidableEq, Repr

/-- The whole mutable state of a `Teleinfo` instance, plus the write log of
the external persistent configuration store.

* `teleinfo_task` holds the identity (a serial number) of the `Task` object
  stored in `self.teleinfo_task`, `none` while that field is `None`;
* `task_running` is whether that task object has been started and not
  stopped; `tasks_created` counts `Task(...)` constructions;
* `last_raw = none` models the attribute `self.last_raw` never having been
  assigned (reading it raises `AttributeError`);
* `conf_writes` logs every object handed to the external `_update_config`. -/
structure TState where
  port : Option String
  last_raw : Option RawFrame
  last_conso_heures_creuses : Int
  last_conso_heures_pleines : Int
  teleinfo_task : Option Nat
  task_running : Bool
  tasks_created : Nat
  conf_writes : List PyObj
  deriving DecidableEq, Repr

/-- State right after `__init__`: `self.port = None`, counters zero, no
task, `self.last_raw` not yet assigned. -/
def initState : TState :=
  { port := none
    last_raw := none
    last_conso_heures_creuses := 0
    last_conso_heures_pleines := 0
    teleinfo_task := none
    task_running := false
    tasks_created := 0
    conf_writes := [] }

/-- Truthiness of `self.port` in `if self.port:`: `None` and the empty
string are falsy. -/
def portTruthy : Option String → Bool
  | none => false
  | some p => p ≠ ""

/-- `_get_config` as overridden in the source: it returns *only* the port
(`return {u'port': self.port}`), not the stored baselines of
`DEFAULT_CONFIG`. -/
def get_config (s : TState) : List (String × PyVal) :=
  [("port", match s.port with
            | none => PyVal.pynone
            | some p => PyVal.str p)]

/-- `_update_config(obj)`: the external key-value store receives `obj`
(logged here; the store's own behaviour is outside this module). -/
def update_config (obj : PyObj) (s : TState) : TState :=
  { s with conf_writes := s.conf_writes ++ [obj] }

/-- Python `config[key] - int_value`: succeeds only when the looked-up
value is an integer (otherwise `TypeError`). -/
def pySubInt : PyVal → Int → Option Int
  | .int a, b => some (a - b)
  | _, _ => none

/-- Consumption-update event parameters (`heurescreuses` /
`heurespleines`), the spec's `DailyConsumption`. -/
structure ConsoParams where
  heurescreuses : Int
  heurespleines : Int
  deriving DecidableEq, Repr

/-- Power-update event parameters, the spec's `PowerSample`. -/
structure PowerParams where
  lastupdate : Int
  power : Int
  currentmode : Option String
  nextmode : Option String
  deriving DecidableEq, Repr

/-- `VA_FACTOR = 220`. -/
def VA_FACTOR : Int := 220

/-- `event_received(event)`, lines 176-203.  Returns the new state, the
consumption-update event sent (if any), and whether an exception escaped
(the midnight branch evaluates `config[u'previousconsoheurescreuses']` on
the dict returned by `_get_config`, and `dict[missing_key]` raises
`KeyError`).  State changes made before a raise are kept. -/
def event_received (s : TState) (ename : String) (hour minute : Int) :
    TState × Option ConsoParams × Bool :=
  if ename = "parameters.time.now" then
    if hour = 0 ∧ minute = 0 then
      let config := get_config s
      match List.lookup "previousconsoheurescreuses" config with
      | none => (s, none, true)
      | some v1 =>
        match pySubInt v1 s.last_conso_heures_creuses with
        | none => (s, none, true)
        | some hc =>
          match List.lookup "previousconsoheurespleines" config with
          | none => (s, none, true)
          | some v2 =>
            match pySubInt v2 s.last_conso_heures_pleines with
            | none => (s, none, true)
            | some hp =>
              let s2 := update_config
                (PyObj.set
                  [PyVal.str "previousconsoheurescreuses",
                   PyVal.int s.last_conso_heures_creuses,
                   PyVal.str "previousconsoheurespleines",
                   PyVal.int s.last_conso_heures_pleines]) s
              (s2, some ⟨hc, hp⟩, false)
    else (s, none, false)
  else (s, none, false)

/-- The consumption branch of `_teleinfo_task` (lines 221-243): the
`if/elif` chain over label sets.  Returns the updated state, whether an
exception was raised by an `int(...)` conversion, and the branch entered.
Assignments preceding a failing conversion are kept, mirroring the
sequential Python statements. -/
def schemeStep (raw : RawFrame) (s : TState) :
    TState × Bool × Option TariffScheme :=
  if hasKeys raw ["HCHC", "HCHP"] then
    match pyInt (getv raw "HCHC") with
    | none => (s, true, some .peakOffPeak)
    | some c =>
      let s1 := { s with last_conso_heures_creuses := c }
      match pyInt (getv raw "HCHP") with
      | none => (s1, true, some .peakOffPeak)
      | some p => ({ s1 with last_conso_heures_pleines := p }, false, some .peakOffPeak)
  else if hasKeys raw ["EJPHN", "EJPHPM"] then
    match pyInt (getv raw "EJPHN") with
    | none => (s, true, some .ejp)
    | some c =>
      let s1 := { s with last_conso_heures_creuses := c }
      match pyInt (getv raw "EJPHPM") with
      | none => (s1, true, some .ejp)
      | some p => ({ s1 with last_conso_heures_pleines := p }, false, some .ejp)
  else if hasKeys raw ["BBRHCJB", "BBRHPJB", "BBRHCJW", "BBRHPJW", "BBRHCJR", "BBRHPJR"] then
    match pyInt (getv raw "BBRHCJB"), pyInt (getv raw "BBRHCJW"), pyInt (getv raw "BBRHCJR") with
    | some a, some b, some c =>
      let s1 := { s with last_conso_heures_creuses := a + b + c }
      match pyInt (getv raw "BBRHPJB"), pyInt (getv raw "BBRHPJW"), pyInt (getv raw "BBRHPJR") with
      | some d, some e, some f =>
        ({ s1 with last_conso_heures_pleines := d + e + f }, false, some .tempo)
      | _, _, _ => (s1, true, some .tempo)
    | _, _, _ => (s, true, some .tempo)
  else if hasKeys raw ["BASE"] then
    match pyInt (getv raw "BASE") with
    | none => (s, true, some .base)
    | some v =>
      let s1 := { s with last_conso_heures_creuses := v }
      ({ s1 with last_conso_heures_pleines := 0 }, false, some .base)
  else
    (s, false, none)

/-- The intensity branch of `_teleinfo_task` (lines 246-258): if `PAPP` is
present, build the power-update parameters (the `int(PAPP)` conversion may
raise) and send the event; otherwise only a warning is logged.  Returns the
event to send (if any) and whether an exception was raised. -/
def powerStep (raw : RawFrame) (now : Int) : Option PowerParams × Bool :=
  if hasKeys raw ["PAPP"] then
    match pyInt (getv raw "PAPP") with
    | none => (none, true)
    | some v =>
      (some { lastupdate := now
              power := v * VA_FACTOR
              currentmode := List.lookup "PTEC" raw
              nextmode := List.lookup "DEMAIN" raw }, false)
  else (none, false)

/-- `_teleinfo_task` (lines 205-261).  `read` is the outcome of
`_get_teleinfo_raw_data()` (the external parser): a frame, or a raised
`FrameError`.  `now` is `int(time.time())`.  The whole body is wrapped in
`try/except` that logs, so the function is total; it returns the new state
and the power-update event sent (if any). -/
def teleinfo_task_method (s : TState) (read : Except Unit RawFrame)
    (now : Int) : TState × Option PowerParams :=
  if portTruthy s.port then
    match read with
    | .error _ => (s, none)
    | .ok raw =>
      let s1 := { s with last_raw := some raw }
      if raw.isEmpty then (s1, none)
      else
        match schemeStep raw s1 with
        | (s2, true, _) => (s2, none)
        | (s2, false, _) =>
          match powerStep raw now with
          | (ev, _) => (s2, ev)
  else (s, none)

/-- `_start_teleinfo_task` (lines 154-160): creates and starts a fresh
`Task` only when `self.teleinfo_task is None`. -/
def start_teleinfo_task (s : TState) : TState :=
  match s.teleinfo_task with
  | none =>
    { s with teleinfo_task := some s.tasks_created
             task_running := true
             tasks_created := s.tasks_created + 1 }
  | some _ => s

/-- `_stop_teleinfo_task` (lines 162-167): stops the task when the field is
not `None`, leaving the field itself untouched. -/
def stop_teleinfo_task (s : TState) : TState :=
  match s.teleinfo_task with
  | none => s
  | some _ => { s with task_running := false }

/-- `_restart_teleinfo_task` (lines 169-174). -/
def restart_teleinfo_task (s : TState) : TState :=
  start_teleinfo_task (stop_teleinfo_task s)

/-- `__configure_hardware` (lines 120-146).  `devices` is the filtered glob
result, `parserOk` whether `Parser(UTInfo2(port=...))` construction
succeeds.  On an empty scan it returns `False` without touching `self.port`;
otherwise it sets `self.port` first and then attempts the parser. -/
def configure_hardware (devices : List String) (parserOk : Bool)
    (s : TState) : TState × Bool :=
  match devices with
  | [] => (s, false)
  | d :: _ =>
    let s1 := { s with port := some d }
    if parserOk then (s1, true) else (s1, false)

/-- The hardware/polling part of `_configure` (lines 112-118): when
hardware configuration succeeds, `self.last_raw` receives a first poll
(`firstRead`); in every case the teleinfo task is then started. -/
def configure (devices : List String) (parserOk : Bool)
    (firstRead : RawFrame) (s : TState) : TState :=
  match configure_hardware devices parserOk s with
  | (s1, ok) =>
    let s2 := if ok then { s1 with last_raw := some firstRead } else s1
    start_teleinfo_task s2

/-- `get_teleinfo` (lines 275-282): `return self.last_raw`.  When the
attribute was never assigned, Python raises `AttributeError` (modelled as
`Except.error`). -/
def get_teleinfo (s : TState) : Except Unit RawFrame :=
  match s.last_raw with
  | none => Except.error ()
  | some r => Except.ok r

/-- A state with a configured port, used as concrete input in witnesses and
counterexamples. -/
def sampleState : TState :=
  { initState with port := some "/dev/serial/by-id/usb-TINFO-0" }

/-- One call to one of the three task-lifecycle methods. -/
inductive TaskOp
  | startOp
  | stopOp
  | restartOp
  deriving DecidableEq, Repr

/-- Dispatch a lifecycle call to the corresponding method. -/
def applyOp : TaskOp → TState → TState
  | .startOp, s => start_teleinfo_task s
  | .stopOp, s => stop_teleinfo_task s
  | .restartOp, s => restart_teleinfo_task s

/-- A sequence of start/stop/restart calls, applied left to right. -/
def applyOps (ops : List TaskOp) (s : TState) : TState :=
  ops.foldl (fun t op => applyOp op t) s

/-- The label set each tariff scheme requires, as listed in the spec's
priority order. -/
def schemeLabels : TariffScheme → List String
  | .peakOffPeak => ["HCHC", "HCHP"]
  | .ejp => ["EJPHN", "EJPHPM"]
  | .tempo => ["BBRHCJB", "BBRHPJB", "BBRHCJW", "BBRHPJW", "BBRHCJR", "BBRHPJR"]
  | .base => ["BASE"]

/-- The spec's fixed priority order of schemes. -/
def schemePriority : List TariffScheme :=
  [.peakOffPeak, .ejp, .tempo, .base]

/-- Modelled from the spec's words ("first full match wins, evaluated in
this fixed order"): the first scheme in priority order whose full label set
is present.  Used only to compare against the classification performed by
`schemeStep`. -/
def spec_first_match (raw : RawFrame) : Option TariffScheme :=
  schemePriority.find? (fun sch => hasKeys raw (schemeLabels sch))

/-- The frame of the spec's Tempo summation example. -/
def tempoFrame : RawFrame :=
  [("BBRHCJB", "10"), ("BBRHPJB", "1"), ("BBRHCJW", "20"),
   ("BBRHPJW", "2"), ("BBRHCJR", "30"), ("BBRHPJR", "3")]

/-- C1: claims every day-rollover emits a `DailyConsumption` with
`off_peak_delta = last_off_peak_energy - baseline` (baseline defaulting to
the last value).  The code instead reads the baselines from
`self._get_config()`, whose override returns only the port: the lookup of
`previousconsoheurescreuses` raises `KeyError` in every state, so at every
midnight time event nothing is emitted, nothing is saved and the exception
escapes `event_received`. -/
theorem c1_rollover_keyerror (s : TState) :
    event_received s "parameters.time.now" 0 0 = (s, none, true) := rfl

/-- C2: claims the baselines are persisted after every day-rollover.  In
every state the midnight branch raises (see the missing-key lookup) before
reaching `_update_config`, so the external store receives no write at all;
moreover the call site would pass a set literal, not a mapping. -/
theorem c2_no_persist (s : TState) :
    (event_received s "parameters.time.now" 0 0).1.conf_writes = s.conf_writes ∧
    (event_received s "parameters.time.now" 0 0).2.2 = true :=
  ⟨rfl, rfl⟩

/-- C4: claims `get_teleinfo` returns a mapping in every module state, empty
when no successful poll has occurred.  After configuring with no teleinfo
device present, `self.last_raw` was never assigned and `get_teleinfo`
raises `AttributeError` instead of returning an empty mapping. -/
theorem c4_get_teleinfo_raises :
    get_teleinfo (configure [] true [] initState) = Except.error () := rfl

/-- C9: a `FrameError` raised while reading the frame is caught by the
task's `try/except`: the state (counters, `last_raw`, everything) is left
exactly as before the cycle, no event is emitted, and the next cycle
behaves as if the failed cycle had never happened. -/
theorem c9_frame_error_resilience (s : TState) (read2 : Except Unit RawFrame)
    (now now2 : Int) :
    teleinfo_task_method s (Except.error ()) now = (s, none) ∧
    teleinfo_task_method (teleinfo_task_method s (Except.error ()) now).1 read2 now2 =
      teleinfo_task_method s read2 now2 := by
  have h : teleinfo_task_method s (Except.error ()) now = (s, none) := by
    unfold teleinfo_task_method
    split <;> rfl
  exact ⟨h, by rw [h]⟩

/-- Any single lifecycle call on a state whose task field is already set
leaves the task field and the creation count unchanged. -/
theorem applyOp_frozen (op : TaskOp) (s : TState)
    (h : s.teleinfo_task.isSome = true) :
    (applyOp op s).teleinfo_task = s.teleinfo_task ∧
    (applyOp op s).tasks_created = s.tasks_created := by
  cases hh : s.teleinfo_task with
  | none => rw [hh] at h; simp at h
  | some i =>
    cases op <;>
      simp [applyOp, start_teleinfo_task, stop_teleinfo_task,
            restart_teleinfo_task, hh]

/-- Any sequence of lifecycle calls on a state whose task field is already
set leaves the task field and the creation count unchanged. -/
theorem applyOps_frozen (ops : List TaskOp) (s : TState)
    (h : s.teleinfo_task.isSome = true) :
    (applyOps ops s).teleinfo_task = s.teleinfo_task ∧
    (applyOps ops s).tasks_created = s.tasks_created := by
  induction ops generalizing s with
  | nil => exact ⟨rfl, rfl⟩
  | cons op rest ih =>
    have h1 := applyOp_frozen op s h
    have hstep : applyOps (op :: rest) s = applyOps rest (applyOp op s) := rfl
    have h2 := ih (applyOp op s) (by rw [h1.1]; exact h)
    exact ⟨hstep ▸ h2.1.trans h1.1, hstep ▸ h2.2.trans h1.2⟩

/-- C10: `_start_teleinfo_task` is idempotent, `_stop_teleinfo_task` never
resets the task field to `None`, after the first start no sequence of
start/stop/restart calls ever constructs a new `Task`, and
`_restart_teleinfo_task` after a start merely stops the running task
without starting a replacement. -/
theorem c10_task_lifecycle (s : TState) (ops : List TaskOp) :
    start_teleinfo_task (start_teleinfo_task s) = start_teleinfo_task s ∧
    (stop_teleinfo_task s).teleinfo_task = s.teleinfo_task ∧
    (applyOps ops (start_teleinfo_task s)).tasks_created =
      (start_teleinfo_task s).tasks_created ∧
    restart_teleinfo_task (start_teleinfo_task s) =
      { start_teleinfo_task s with task_running := false } := by
  have hsome : (start_teleinfo_task s).teleinfo_task.isSome = true := by
    cases hh : s.teleinfo_task <;> simp [start_teleinfo_task, hh]
  refine ⟨?_, ?_, (applyOps_frozen ops _ hsome).2, ?_⟩
  · cases hh : s.teleinfo_task <;> simp [start_teleinfo_task, hh]
  · cases hh : s.teleinfo_task <;> simp [stop_teleinfo_task, hh]
  · cases hh : s.teleinfo_task <;>
      simp [restart_teleinfo_task, start_teleinfo_task, stop_teleinfo_task, hh]

/-- The branch entered by `schemeStep` depends only on which label sets are
present, following the `if/elif` chain. -/
theorem schemeStep_scheme (raw : RawFrame) (s : TState) :
    (schemeStep raw s).2.2 =
      (if hasKeys raw ["HCHC", "HCHP"] then some TariffScheme.peakOffPeak
       else if hasKeys raw ["EJPHN", "EJPHPM"] then some TariffScheme.ejp
       else if hasKeys raw ["BBRHCJB", "BBRHPJB", "BBRHCJW", "BBRHPJW",
                            "BBRHCJR", "BBRHPJR"] then some TariffScheme.tempo
       else if hasKeys raw ["BASE"] then some TariffScheme.base
       else none) := by
  unfold schemeStep
  repeat' split <;> try rfl

/-- C6: scheme selection is first-full-match-wins in the fixed order
PeakOffPeak, EJP, Tempo, Base (the branch entered by the `if/elif` chain
equals the spec-side first full match in priority order); in particular a
frame containing `HCHC` and `HCHP` always classifies as PeakOffPeak, never
Base, whatever else it contains. -/
theorem c6_priority (raw : RawFrame) (s : TState) :
    (schemeStep raw s).2.2 = spec_first_match raw ∧
    (hasKeys raw ["HCHC", "HCHP"] = true →
      (schemeStep raw s).2.2 = some TariffScheme.peakOffPeak) := by
  have key : (schemeStep raw s).2.2 = spec_first_match raw := by
    rw [schemeStep_scheme]
    simp only [spec_first_match, schemePriority, List.find?, schemeLabels]
    repeat' split <;> simp_all
  refine ⟨key, fun h1 => ?_⟩
  rw [schemeStep_scheme, if_pos h1]

/-- Witness for C6 at the spec's own example: a frame carrying both the
HCHC/HCHP pair and BASE classifies as PeakOffPeak. -/
theorem c6_priority_witness :
    hasKeys [("HCHC", "1"), ("HCHP", "2"), ("BASE", "3")] ["HCHC", "HCHP"] = true ∧
    (schemeStep [("HCHC", "1"), ("HCHP", "2"), ("BASE", "3")] initState).2.2 =
      some TariffScheme.peakOffPeak :=
  ⟨by decide,
   (c6_priority [("HCHC", "1"), ("HCHP", "2"), ("BASE", "3")] initState).2 (by decide)⟩

/-- C3 counterexample: a decoded frame containing none of the four known
label sets — only `PAPP` — still leads to a power-update event being
emitted, contradicting the claim that such a cycle emits no event. -/
theorem c3_counterexample :
    hasKeys [("PAPP", "1000")] ["HCHC", "HCHP"] = false ∧
    hasKeys [("PAPP", "1000")] ["EJPHN", "EJPHPM"] = false ∧
    hasKeys [("PAPP", "1000")] ["BBRHCJB", "BBRHPJB", "BBRHCJW", "BBRHPJW",
                                "BBRHCJR", "BBRHPJR"] = false ∧
    hasKeys [("PAPP", "1000")] ["BASE"] = false ∧
    (teleinfo_task_method sampleState (Except.ok [("PAPP", "1000")]) 5).2 ≠ none := by
  decide

/-- C3 as amended: when none of the four label sets is fully present the
cycle only logs a warning — the consumption counters are left unchanged,
but the intensity branch still runs, so the power-update event is exactly
what `powerStep` yields (emitted whenever `PAPP` is present with a
parseable value, suppressed otherwise). -/
theorem c3_amended (s : TState) (raw : RawFrame) (now : Int)
    (hport : portTruthy s.port = true)
    (h1 : hasKeys raw ["HCHC", "HCHP"] = false)
    (h2 : hasKeys raw ["EJPHN", "EJPHPM"] = false)
    (h3 : hasKeys raw ["BBRHCJB", "BBRHPJB", "BBRHCJW", "BBRHPJW",
                       "BBRHCJR", "BBRHPJR"] = false)
    (h4 : hasKeys raw ["BASE"] = false) :
    (teleinfo_task_method s (Except.ok raw) now).1.last_conso_heures_creuses =
      s.last_conso_heures_creuses ∧
    (teleinfo_task_method s (Except.ok raw) now).1.last_conso_heures_pleines =
      s.last_conso_heures_pleines ∧
    (teleinfo_task_method s (Except.ok raw) now).2 = (powerStep raw now).1 := by
  unfold teleinfo_task_method
  simp only [hport, if_true]
  cases raw with
  | nil => exact ⟨rfl, rfl, rfl⟩
  | cons g gs =>
    simp only [List.isEmpty_cons, Bool.false_eq_true, if_false]
    rw [show schemeStep (g :: gs) { s with last_raw := some (g :: gs) } =
          ({ s with last_raw := some (g :: gs) }, false, none) by
        unfold schemeStep; rw [h1, h2, h3, h4]; rfl]
    rcases hP : powerStep (g :: gs) now with ⟨ev, fl⟩
    exact ⟨rfl, rfl, rfl⟩

/-- Witness for C3's amended statement at a concrete frame containing only
`PAPP`. -/
theorem c3_amended_witness :
    portTruthy sampleState.port = true ∧
    (teleinfo_task_method sampleState (Except.ok [("PAPP", "1000")]) 5).2 =
      (powerStep [("PAPP", "1000")] 5).1 :=
  ⟨by decide,
   (c3_amended sampleState [("PAPP", "1000")] 5 (by decide) (by decide)
      (by decide) (by decide) (by decide)).2.2⟩

/-- C5 counterexample: in the PeakOffPeak scheme, with `HCHC = "5"` valid
and `HCHP = "x"` failing to parse, the off-peak counter is nevertheless
updated — contradicting the claim that both counters retain their
pre-cycle values on a parse failure of a required label. -/
theorem c5_counterexample :
    pyInt "x" = none ∧
    (teleinfo_task_method sampleState
        (Except.ok [("HCHC", "5"), ("HCHP", "x")]) 0).1.last_conso_heures_creuses ≠
      sampleState.last_conso_heures_creuses := by
  decide

/-- C5 as amended: a parse failure on a required label is contained within
the cycle (the task returns normally and emits no event — the raise skips
the intensity branch even when `PAPP` is present), but the counter update
is not atomic — assignments made before the failing conversion are kept.
For every frame matching the PeakOffPeak scheme with a parseable `HCHC`
and an unparseable `HCHP`, the off-peak counter takes `HCHC`'s value while
the peak counter retains its previous value. -/
theorem c5_amended (s : TState) (raw : RawFrame) (va now : Int)
    (hport : portTruthy s.port = true)
    (hk : hasKeys raw ["HCHC", "HCHP"] = true)
    (ha : pyInt (getv raw "HCHC") = some va)
    (hb : pyInt (getv raw "HCHP") = none) :
    teleinfo_task_method s (Except.ok raw) now =
      ({ s with last_raw := some raw
                last_conso_heures_creuses := va }, none) := by
  have hne : raw.isEmpty = false := by
    cases raw with
    | nil => simp [hasKeys] at hk
    | cons g gs => rfl
  unfold teleinfo_task_method
  simp only [hport, if_true, hne, Bool.false_eq_true, if_false]
  rw [show schemeStep raw { s with last_raw := some raw } =
      ({ s with last_raw := some raw
                last_conso_heures_creuses := va }, true, some .peakOffPeak) from ?_]
  unfold schemeStep
  simp only [hk, if_true, ha, hb]

/-- Witness for C5's amended statement at a frame with `HCHC = "5"`,
`HCHP = "x"` and a parseable `PAPP = "1000"`: the off-peak counter becomes
5, the peak counter keeps its value, and no power event is emitted despite
`PAPP` being present and parseable. -/
theorem c5_amended_witness :
    pyInt "5" = some 5 ∧ pyInt "x" = none ∧ pyInt "1000" = some 1000 ∧
    teleinfo_task_method sampleState
        (Except.ok [("HCHC", "5"), ("HCHP", "x"), ("PAPP", "1000")]) 0 =
      ({ sampleState with
            last_raw := some [("HCHC", "5"), ("HCHP", "x"), ("PAPP", "1000")]
            last_conso_heures_creuses := 5 }, none) :=
  ⟨by decide, by decide, by decide,
   c5_amended sampleState [("HCHC", "5"), ("HCHP", "x"), ("PAPP", "1000")] 5 0
     (by decide) (by decide) (by decide) (by decide)⟩

/-- C7: for a frame matching the Tempo scheme (all six BBR labels present,
no higher-priority scheme matching) whose six counters parse, the recorded
off-peak counter is the sum of the three HCJ counters and the peak counter
the sum of the three HPJ counters. -/
theorem c7_tempo (s : TState) (raw : RawFrame) (now : Int) (a b c d e f : Int)
    (hport : portTruthy s.port = true)
    (h1 : hasKeys raw ["HCHC", "HCHP"] = false)
    (h2 : hasKeys raw ["EJPHN", "EJPHPM"] = false)
    (h3 : hasKeys raw ["BBRHCJB", "BBRHPJB", "BBRHCJW", "BBRHPJW",
                       "BBRHCJR", "BBRHPJR"] = true)
    (ha : pyInt (getv raw "BBRHCJB") = some a)
    (hb : pyInt (getv raw "BBRHCJW") = some b)
    (hc : pyInt (getv raw "BBRHCJR") = some c)
    (hd : pyInt (getv raw "BBRHPJB") = some d)
    (he : pyInt (getv raw "BBRHPJW") = some e)
    (hf : pyInt (getv raw "BBRHPJR") = some f) :
    (teleinfo_task_method s (Except.ok raw) now).1.last_conso_heures_creuses =
      a + b + c ∧
    (teleinfo_task_method s (Except.ok raw) now).1.last_conso_heures_pleines =
      d + e + f := by
  have hne : raw.isEmpty = false := by
    cases raw with
    | nil => simp [hasKeys] at h3
    | cons g gs => rfl
  unfold teleinfo_task_method
  simp only [hport, if_true, hne, Bool.false_eq_true, if_false]
  rw [show schemeStep raw { s with last_raw := some raw } =
        ({ s with last_raw := some raw
                  last_conso_heures_creuses := a + b + c
                  last_conso_heures_pleines := d + e + f },
         false, some .tempo) from ?_]
  · rcases hP : powerStep raw now with ⟨ev, fl⟩
    simp only [hP]
    trivial
  · unfold schemeStep
    simp only [h1, h2, h3, Bool.false_eq_true, if_false, if_true,
               ha, hb, hc, hd, he, hf]

/-- Witness for C7 at the spec's example frame: off-peak = 10+20+30 = 60,
peak = 1+2+3 = 6. -/
theorem c7_tempo_witness :
    (teleinfo_task_method sampleState (Except.ok tempoFrame) 0).1.last_conso_heures_creuses = 60 ∧
    (teleinfo_task_method sampleState (Except.ok tempoFrame) 0).1.last_conso_heures_pleines = 6 := by
  have h := c7_tempo sampleState tempoFrame 0 10 20 30 1 2 3
    (by decide) (by decide) (by decide) (by decide) (by decide) (by decide)
    (by decide) (by decide) (by decide) (by decide)
  exact ⟨h.1.trans (by decide), h.2.trans (by decide)⟩

/-- C8 counterexample: `PAPP` is present with a perfectly parseable value,
yet no power-update event is produced, because the earlier `int('x')` on
the matched scheme's `HCHC` raises and aborts the cycle — contradicting
the claim that an event is produced whenever `PAPP` is present. -/
theorem c8_counterexample :
    hasKeys [("HCHC", "x"), ("HCHP", "1"), ("PAPP", "1000")] ["PAPP"] = true ∧
    pyInt "1000" = some 1000 ∧
    (teleinfo_task_method sampleState
        (Except.ok [("HCHC", "x"), ("HCHP", "1"), ("PAPP", "1000")]) 0).2 = none := by
  decide

/-- C8 as amended: provided the consumption branch raised no exception, the
emitted event is exactly `powerStep`'s outcome: no event when `PAPP` is
absent or its value does not parse as an integer, and otherwise an event
with power `int(PAPP) * VA_FACTOR`, current mode from `PTEC` when present
else `None`, next mode from `DEMAIN` when present else `None`. -/
theorem c8_amended (s : TState) (raw : RawFrame) (now : Int)
    (hport : portTruthy s.port = true)
    (hne : raw.isEmpty = false)
    (hnr : (schemeStep raw { s with last_raw := some raw }).2.1 = false) :
    ((teleinfo_task_method s (Except.ok raw) now).2 = (powerStep raw now).1) ∧
    (hasKeys raw ["PAPP"] = false → (powerStep raw now).1 = none) ∧
    (∀ v : Int, pyInt (getv raw "PAPP") = some v →
      (powerStep raw now).1 =
        some { lastupdate := now
               power := v * VA_FACTOR
               currentmode := List.lookup "PTEC" raw
               nextmode := List.lookup "DEMAIN" raw }) ∧
    (pyInt (getv raw "PAPP") = none → (powerStep raw now).1 = none) := by
  refine ⟨?_, ?_, ?_, ?_⟩
  · unfold teleinfo_task_method
    simp only [hport, if_true, hne, Bool.false_eq_true, if_false]
    rcases hS : schemeStep raw { s with last_raw := some raw } with ⟨s2, fl, sch⟩
    rw [hS] at hnr
    simp only at hnr
    subst hnr
    simp only [hS]
  · intro h
    simp [powerStep, h]
  · intro v hv
    cases hL : List.lookup "PAPP" raw with
    | none =>
      exfalso
      rw [getv, hL] at hv
      rw [show pyInt (Option.getD none "") = none from rfl] at hv
      cases hv
    | some w =>
      have hk : hasKeys raw ["PAPP"] = true := by simp [hasKeys, hL]
      simp only [powerStep, hk, if_true, hv]
  · intro h
    cases hk : hasKeys raw ["PAPP"] with
    | false => simp [powerStep, hk]
    | true => simp only [powerStep, hk, if_true, h]

/-- Witness for C8's amended statement at a frame containing only
`PAPP = 1000`: the emitted event carries power 1000 * 220 = 220000. -/
theorem c8_amended_witness :
    (teleinfo_task_method sampleState (Except.ok [("PAPP", "1000")]) 5).2 =
      (powerStep [("PAPP", "1000")] 5).1 ∧
    (powerStep [("PAPP", "1000")] 5).1 = some ⟨5, 220000, none, none⟩ :=
  ⟨(c8_amended sampleState [("PAPP", "1000")] 5 (by decide) (by decide)
      (by decide)).1,
   by decide⟩
